import Mathlib

/-!
Shallow embedding of the AI-Video-Generator backend.

Sources embedded here:
- src/backend/models/video_generator.py  (class VideoGenerator: generate_video,
  the internal Hugging Face generation path, mock generation, get_generation_status)
- src/backend/main.py                    (non-serverless FastAPI request handler and
  the static-file mount)
- src/backend/api/index.py               (serverless request handler and the stateless
  generation function)

Machine-level effects (the in-memory task dictionary and the files written under
static/generated_videos) are modelled by explicit state passing over association
lists. The external provider call is abstracted by an outcome parameter that ranges
over everything the Python code distinguishes: a returned payload of one of the four
duck-typed shapes, a falsy or missing result, an exception, and (in the serverless
variant) a timeout.
-/

/-- Byte strings are modelled as lists of naturals (one entry per byte). -/
abbrev Bytes := List Nat

/-- Task status values stored in the generation_tasks dictionary of
video_generator.py: the code writes exactly the strings "processing",
"completed" and "failed". -/
inductive TaskStatus where
  | processing
  | completed
  | failed
  deriving DecidableEq, Repr

/-- One entry of self.generation_tasks. The dictionary created at
video_generator.py lines 69 to 74 has keys status, provider, created_at and
prompt; the update calls later add video_url or error, modelled as Option
fields that start as none. -/
structure TaskRecord where
  status : TaskStatus
  provider : String
  createdAt : Nat
  prompt : String
  videoUrl : Option String := none
  error : Option String := none
  deriving DecidableEq, Repr

/-- The task dictionary self.generation_tasks, as an insertion-ordered
association list keyed by the task id. -/
abbrev TaskTable := List (String × TaskRecord)

/-- Process state touched by the generator: the task dictionary and the files
written under the working directory (path contents pairs). -/
structure GenState where
  tasks : TaskTable
  files : List (String × Bytes)
  deriving DecidableEq, Repr

/-- Dictionary read: first binding of the key wins, as in a Python dict. -/
def lookupAssoc {α : Type} : List (String × α) → String → Option α
  | [], _ => none
  | (k0, v0) :: rest, k => if k0 == k then some v0 else lookupAssoc rest k

/-- Dictionary assignment d[k] = v: replace the binding in place when the key
is present, otherwise append it, matching Python dict insertion order. -/
def setAssoc {α : Type} : List (String × α) → String → α → List (String × α)
  | [], k, v => [(k, v)]
  | (k0, v0) :: rest, k, v =>
    if k0 == k then (k, v) :: rest else (k0, v0) :: setAssoc rest k v

/-- Dictionary merge d[k].update(...): apply f to the stored record when the
key is present, otherwise leave the table unchanged (every call site in the
source only reaches the update after the key was inserted, or guards it with
an explicit membership test). -/
def updateAssoc {α : Type} : List (String × α) → String → (α → α) → List (String × α)
  | [], _, _ => []
  | (k0, v0) :: rest, k, f =>
    if k0 == k then (k0, f v0) :: rest else (k0, v0) :: updateAssoc rest k f

/-- Provider payload, covering the four duck-typed shapes probed by the save
logic of video_generator.py lines 107 to 123 and by index.py lines 86 to 94:
an object with a .content bytes attribute, a raw bytes value, an object with a
byte-yielding .read(), and a string naming an existing file whose contents are
the given bytes (os.path.exists is only true of such paths, which are in
particular nonempty strings). Each constructor carries the underlying bytes. -/
inductive VideoResult where
  | contentObj (content : Bytes)
  | rawBytes (data : Bytes)
  | readable (data : Bytes)
  | filePath (path : String) (data : Bytes)
  deriving DecidableEq, Repr

/-- The bytes a payload carries, independent of its shape. -/
def underlyingBytes : VideoResult → Bytes
  | .contentObj b => b
  | .rawBytes b => b
  | .readable b => b
  | .filePath _ b => b

/-- Python truthiness of the payload, as tested by `if video_result:` in both
variants: objects are truthy, a bytes value is truthy iff nonempty, a string
is truthy iff nonempty. -/
def pyTruthy : VideoResult → Bool
  | .contentObj _ => true
  | .rawBytes [] => false
  | .rawBytes (_ :: _) => true
  | .readable _ => true
  | .filePath p _ => !(p == "")

/-- Side condition used by theorems that restrict the file-path shape to an
existing (hence nonempty) path, as the claims do. -/
def pathOk : VideoResult → Bool
  | .filePath p _ => !(p == "")
  | _ => true

/-- Bytes written by the save branch of video_generator.py lines 107 to 123:
write .content, write the bytes, write .read(), or shutil.copy the named file
(which copies its contents). -/
def savedVideoBytes : VideoResult → Bytes
  | .contentObj b => b
  | .rawBytes b => b
  | .readable b => b
  | .filePath _ b => b

/-- Bytes extracted by the serverless branch of index.py lines 86 to 94:
.content, the bytes themselves, .read(), or reading the existing file named by
the string. The constructor semantics make the os.path.exists test true for
the filePath shape. -/
def extractVideoData : VideoResult → Option Bytes
  | .contentObj b => some b
  | .rawBytes b => some b
  | .readable b => some b
  | .filePath _ b => some b

/-- Python truthiness of a bytes value, as tested by `if video_data:`. -/
def bytesNonempty : Bytes → Bool
  | [] => false
  | _ :: _ => true

/-- Base64 alphabet used by base64.b64encode. -/
def base64Alphabet : String :=
  "ABCDEFGHIJKLMNOPQRSTUVWXYZabcdefghijklmnopqrstuvwxyz0123456789+/"

/-- Character of the base64 alphabet at a 6-bit index. -/
def b64Char (n : Nat) : Char := base64Alphabet.toList.getD n 'A'

/-- Standard base64 encoding of a byte list, three bytes to four characters
with = padding, modelling base64.b64encode(...).decode("utf-8"). -/
def b64Encode : List Nat → List Char
  | [] => []
  | [b1] =>
    [b64Char (b1 / 4), b64Char (b1 % 4 * 16), '=', '=']
  | [b1, b2] =>
    [b64Char (b1 / 4), b64Char (b1 % 4 * 16 + b2 / 16), b64Char (b2 % 16 * 4), '=']
  | b1 :: b2 :: b3 :: rest =>
    b64Char (b1 / 4) :: b64Char (b1 % 4 * 16 + b2 / 16) ::
      b64Char (b2 % 16 * 4 + b3 / 64) :: b64Char (b3 % 64) :: b64Encode rest

/-- Base64 encoding as a string. -/
def b64EncodeStr (bs : Bytes) : String := String.mk (b64Encode bs)

/-- Result dictionary returned by the generator functions and projected by the
handlers. The Python code returns dicts whose keys are status and a subset of
video_url, video_data, task_id and message; absent keys are modelled as none. -/
structure GenResult where
  status : String
  videoUrl : Option String := none
  videoData : Option String := none
  taskId : Option String := none
  message : Option String := none
  deriving DecidableEq, Repr

/-- Characters of pat are an initial segment of the second list. -/
def startsWithChars : List Char → List Char → Bool
  | [], _ => true
  | _ :: _, [] => false
  | p :: ps, h :: hs => p == h && startsWithChars ps hs

/-- Substring test on character lists, modelling the Python `in` operator on
strings. -/
def containsChars (pat : List Char) : List Char → Bool
  | [] => startsWithChars pat []
  | c :: rest => startsWithChars pat (c :: rest) || containsChars pat rest

/-- Substring test on strings: pat occurs in s. -/
def strContainsStr (s pat : String) : Bool := containsChars pat.toList s.toList

/-- ASCII lower-casing, modelling str.lower() on the ASCII messages involved. -/
def pyLower (s : String) : String := String.mk (s.toList.map Char.toLower)

/-- Whitespace characters removed by Python str.strip(). -/
def pyIsSpace (c : Char) : Bool :=
  c == ' ' || c == '\t' || c == '\n' || c == '\r' || c == Char.ofNat 11 || c == Char.ofNat 12

/-- Python str.strip(): drop whitespace from both ends. -/
def pyStrip (s : String) : String :=
  String.mk (((s.toList.dropWhile pyIsSpace).reverse.dropWhile pyIsSpace).reverse)

/-- The validation condition of both handlers (main.py line 86, index.py line
144): `not request.prompt or len(request.prompt.strip()) < 3`. -/
def promptTooShort (p : String) : Bool :=
  p == "" || decide ((pyStrip p).toList.length < 3)

/-- Outcome of the blocking provider call in the persistent-server generator
(the lambda at video_generator.py lines 86 to 95): a returned payload, a falsy
or missing result, or a raised exception carrying its message. -/
inductive ProviderOutcome where
  | ok (r : VideoResult)
  | noneResult
  | exn (msg : String)
  deriving DecidableEq, Repr

/-- Outcome of the provider call in the serverless variant (index.py lines 62
to 78), which additionally distinguishes the asyncio timeout. -/
inductive SProviderOutcome where
  | ok (r : VideoResult)
  | noneResult
  | timeout
  | exn (msg : String)
  deriving DecidableEq, Repr

/-- Model name configured at video_generator.py line 37. -/
def modelName : String := "Wan-AI/Wan2.2-T2V-A14B"

/-- Frame count hard-coded at video_generator.py line 82. -/
def hfNumFrames : Nat := 120

/-- Arguments of the client.text_to_video call at video_generator.py lines 88
to 94. The duration argument of the surrounding function is not consulted:
num_frames is the fixed constant 120 and num_inference_steps is 25. -/
structure ProviderCallArgs where
  prompt : String
  model : String
  numFrames : Nat
  numInferenceSteps : Nat
  deriving DecidableEq, Repr

/-- Provider call arguments built by _generate_with_huggingface for a given
prompt and (ignored) duration. -/
def hfCallArgs (prompt : String) (duration : Nat) : ProviderCallArgs :=
  { prompt := prompt
    model := modelName
    numFrames := hfNumFrames
    numInferenceSteps := 25 }

/-- File name chosen at video_generator.py line 100. -/
def videoFilename (taskId : String) : String :=
  "generated_video_" ++ taskId ++ ".mp4"

/-- Path the video file is written to, video_generator.py line 101. -/
def videoFilePath (taskId : String) : String :=
  "static/generated_videos/" ++ videoFilename taskId

/-- URL placed in the result and the task record, video_generator.py line 126. -/
def hfVideoUrl (taskId : String) : String :=
  "/video-static/generated_videos/" ++ videoFilename taskId

/-- Route of the static mount in main.py line 127:
app.mount("/static", StaticFiles(directory="static"), name="video_static"). -/
def staticMountRoute : String := "/static"

/-- Directory served by that mount. -/
def staticMountDir : String := "static"

/-- URL at which the static mount serves a written file: a file at path
static/rest is retrievable at /static/rest, and files outside the mounted
directory are not served. -/
def servedUrlOfPath (p : String) : Option String :=
  if startsWithChars (staticMountDir ++ "/").toList p.toList then
    some (staticMountRoute ++ String.mk (p.toList.drop staticMountDir.toList.length))
  else
    none

/-- Task record inserted at video_generator.py lines 69 to 74 before the
provider call. -/
def hfInitRecord (prompt : String) (now : Nat) : TaskRecord :=
  { status := .processing
    provider := "huggingface"
    createdAt := now
    prompt := prompt }

/-- First half of _generate_with_huggingface: store the processing task info
under the task id. -/
def hfInsertTask (s : GenState) (prompt taskId : String) (now : Nat) : GenState :=
  { s with tasks := setAssoc s.tasks taskId (hfInitRecord prompt now) }

/-- Error annotation of video_generator.py lines 166 to 168: when the
lower-cased exception text mentions num_frames or duration, flag it as a model
limitation. -/
def hfErrorMessage (msg : String) : String :=
  if strContainsStr (pyLower msg) "num_frames" || strContainsStr (pyLower msg) "duration" then
    "Model limitation: The Wan-AI model may only support 5-second videos. Original error: " ++ msg
  else
    msg

/-- The else branch at video_generator.py lines 142 to 153, reached when the
provider result is falsy: mark the task failed and return an error result. -/
def hfFailNoContent (s : GenState) (taskId : String) : GenResult × GenState :=
  ({ status := "error"
     message := some "Video generation failed - no content received"
     taskId := some taskId },
   { s with
       tasks := updateAssoc s.tasks taskId
         (fun r => { r with status := .failed, error := some "No video content received" }) })

/-- Second half of _generate_with_huggingface (video_generator.py lines 86 to
174): react to the provider outcome. A truthy payload is saved to the static
file, the task is completed with the video URL, and a success result is
returned; a falsy or missing payload fails the task; an exception fails the
task with the exception text and returns an annotated error result. -/
def hfResolve (s : GenState) (taskId : String) (outcome : ProviderOutcome) :
    GenResult × GenState :=
  match outcome with
  | .ok r =>
    if pyTruthy r then
      ({ status := "success"
         videoUrl := some (hfVideoUrl taskId)
         taskId := some taskId
         message := some "Video generated successfully using Hugging Face" },
       { s with
           files := setAssoc s.files (videoFilePath taskId) (savedVideoBytes r)
           tasks := updateAssoc s.tasks taskId
             (fun rec => { rec with status := .completed, videoUrl := some (hfVideoUrl taskId) }) })
    else
      hfFailNoContent s taskId
  | .noneResult => hfFailNoContent s taskId
  | .exn msg =>
    ({ status := "error"
       message := some ("Hugging Face API error: " ++ hfErrorMessage msg)
       taskId := some taskId },
     { s with
         tasks := updateAssoc s.tasks taskId
           (fun r => { r with status := .failed, error := some msg }) })

/-- _generate_with_huggingface of video_generator.py: insert the processing
record, perform the provider call (abstracted by outcome), and resolve. The
duration argument is received but never used; the provider call uses
hfCallArgs prompt duration. -/
def generateWithHuggingface (s : GenState) (prompt : String) (duration : Nat)
    (taskId : String) (now : Nat) (outcome : ProviderOutcome) : GenResult × GenState :=
  hfResolve (hfInsertTask s prompt taskId now) taskId outcome

/-- Placeholder URL of _mock_generation, video_generator.py line 186. -/
def mockVideoUrl : String := "/video-static/generated_videos/mock_video.mp4"

/-- Simulated processing delay of _mock_generation (asyncio.sleep(3) at
video_generator.py line 183), in seconds. -/
def mockSimulatedDelaySeconds : Nat := 3

/-- _mock_generation of video_generator.py lines 176 to 201: after the
simulated delay, store a completed task with the placeholder URL and return a
success result. -/
def mockGeneration (s : GenState) (prompt : String) (duration : Nat)
    (taskId : String) (now : Nat) : GenResult × GenState :=
  ({ status := "success"
     videoUrl := some mockVideoUrl
     taskId := some taskId
     message := some "Mock video generated (add HF_TOKEN for real generation)" },
   { s with
       tasks := setAssoc s.tasks taskId
         { status := .completed
           videoUrl := some mockVideoUrl
           provider := "mock"
           createdAt := now
           prompt := prompt } })

/-- generate_video of video_generator.py lines 44 to 59. The uuid4 allocation
is modelled by the taskId parameter, chosen before any other effect. The
caller-supplied duration is overwritten with 5; hfToken models self.hf_token
and clientOk models that self.client was successfully initialized (which the
constructor only attempts when the token is present). -/
def generateVideo (hfToken : Option String) (clientOk : Bool) (s : GenState)
    (prompt : String) (duration : Nat) (taskId : String) (now : Nat)
    (outcome : ProviderOutcome) : GenResult × GenState :=
  let forcedDuration := 5
  if clientOk && hfToken.isSome then
    generateWithHuggingface s prompt forcedDuration taskId now outcome
  else
    mockGeneration s prompt forcedDuration taskId now

/-- get_generation_status of video_generator.py lines 203 to 232. The function
only reads the task table; it is given the state and hands it back unchanged,
which makes the absence of writes part of the definition a reviewer can check
against the source. -/
def getGenerationStatus (s : GenState) (taskId : String) : GenResult × GenState :=
  match lookupAssoc s.tasks taskId with
  | none => ({ status := "error", message := some "Task not found" }, s)
  | some info =>
    match info.status with
    | .completed =>
      ({ status := "success"
         videoUrl := info.videoUrl
         taskId := some taskId
         message := some "Video generation completed" }, s)
    | .processing =>
      ({ status := "processing"
         taskId := some taskId
         message := some "Video is still being generated..." }, s)
    | .failed =>
      ({ status := "error"
         taskId := some taskId
         message := some (info.error.getD "Video generation failed") }, s)

/-- generate_video_serverless of index.py lines 42 to 127. The function keeps
no task table (the module defines none): its whole effect is the returned
dictionary. A missing HF_TOKEN returns an error result without calling the
provider; a timeout, an exception, a falsy result and an empty extracted
payload each return their error result; a truthy payload with nonempty bytes
is base64-encoded into video_data. -/
def generateVideoServerless (hfToken : Option String) (taskId prompt : String)
    (duration : Nat) (outcome : SProviderOutcome) : GenResult :=
  match hfToken with
  | none =>
    { status := "error", message := some "HF_TOKEN not configured", taskId := some taskId }
  | some _ =>
    match outcome with
    | .timeout =>
      { status := "error"
        message := some "Video generation timed out. Try a shorter/simpler prompt."
        taskId := some taskId }
    | .exn msg =>
      { status := "error"
        message := some ("Generation failed: " ++ msg)
        taskId := some taskId }
    | .noneResult =>
      { status := "error", message := some "No result from AI model", taskId := some taskId }
    | .ok r =>
      if pyTruthy r then
        match extractVideoData r with
        | some data =>
          if bytesNonempty data then
            { status := "success"
              videoData := some (b64EncodeStr data)
              taskId := some taskId
              message := some "Video generated successfully" }
          else
            { status := "error"
              message := some "No video content received from AI model"
              taskId := some taskId }
        | none =>
          { status := "error"
            message := some "No video content received from AI model"
            taskId := some taskId }
      else
        { status := "error", message := some "No result from AI model", taskId := some taskId }

/-- Task-store writes performed by one serverless invocation. The serverless
module src/backend/api/index.py defines no task table and its generation
function performs no write to any task store; recording the (empty) list of
writes explicitly lets theorems speak about stored serverless task records. -/
def serverlessTaskWrites (hfToken : Option String) (taskId prompt : String)
    (duration : Nat) (outcome : SProviderOutcome) : TaskTable := []

deriving instance DecidableEq for Except

/-- HTTPException carrying a status code and a detail string. -/
structure HTTPError where
  statusCode : Nat
  detail : String
  deriving DecidableEq, Repr

/-- Python str() of a starlette HTTPException: "status_code: detail". -/
def httpExcText (e : HTTPError) : String :=
  toString e.statusCode ++ ": " ++ e.detail

/-- Response model VideoResponse of main.py lines 33 to 37 (no video_data
field in the non-serverless variant). -/
structure MainVideoResponse where
  status : String
  videoUrl : Option String := none
  taskId : Option String := none
  message : Option String := none
  deriving DecidableEq, Repr

/-- Response model VideoResponse of index.py lines 34 to 39, which adds the
base64 video_data field. -/
structure ServerlessVideoResponse where
  status : String
  videoUrl : Option String := none
  videoData : Option String := none
  taskId : Option String := none
  message : Option String := none
  deriving DecidableEq, Repr

/-- Body of the try block of the generate_video endpoint in main.py lines 82
to 107: validate the prompt (raising HTTPException 400 on failure), call the
generator, and map a success result to a success response and every other
result to a processing response that carries the task id. -/
def mainGenerateVideoBody (hfToken : Option String) (clientOk : Bool) (s : GenState)
    (prompt : String) (duration : Nat) (taskId : String) (now : Nat)
    (outcome : ProviderOutcome) : Except HTTPError MainVideoResponse × GenState :=
  if promptTooShort prompt then
    (.error { statusCode := 400, detail := "Prompt must be at least 3 characters long" }, s)
  else
    let rs := generateVideo hfToken clientOk s prompt duration taskId now outcome
    if rs.1.status == "success" then
      (.ok { status := "success"
             videoUrl := rs.1.videoUrl
             taskId := rs.1.taskId
             message := some "Video generated successfully" }, rs.2)
    else
      (.ok { status := "processing"
             taskId := rs.1.taskId
             message := some "Video generation in progress. Check status with task ID." }, rs.2)

/-- The generate_video endpoint of main.py lines 79 to 111. The except block
catches every Exception, including the HTTPException(400) raised by the
validation (fastapi HTTPException subclasses Exception), and re-raises it as
HTTPException(500, "Video generation failed: " + str(e)). -/
def mainGenerateVideoEndpoint (hfToken : Option String) (clientOk : Bool) (s : GenState)
    (prompt : String) (duration : Nat) (taskId : String) (now : Nat)
    (outcome : ProviderOutcome) : Except HTTPError MainVideoResponse × GenState :=
  match mainGenerateVideoBody hfToken clientOk s prompt duration taskId now outcome with
  | (.error e, s2) =>
    (.error { statusCode := 500, detail := "Video generation failed: " ++ httpExcText e }, s2)
  | ok => ok

/-- Body of the try block of the serverless generate_video endpoint in
index.py lines 140 to 165: validate the prompt (raising HTTPException 400 on
failure), call the stateless generator, and map a success result to a success
response with video_data and every other result to an error response that
carries the generator message and task id. -/
def serverlessEndpointBody (hfToken : Option String) (taskId prompt : String)
    (duration : Nat) (outcome : SProviderOutcome) : Except HTTPError ServerlessVideoResponse :=
  if promptTooShort prompt then
    .error { statusCode := 400, detail := "Prompt must be at least 3 characters long" }
  else
    let result := generateVideoServerless hfToken taskId prompt duration outcome
    if result.status == "success" then
      .ok { status := "success"
            videoData := result.videoData
            taskId := result.taskId
            message := some "Video generated successfully (serverless)" }
    else
      .ok { status := "error"
            taskId := result.taskId
            message := result.message }

/-- The generate_video endpoint of index.py lines 137 to 169, with the same
except-Exception wrapper as the non-serverless variant: a raised
HTTPException(400) is caught and re-raised as a 500. -/
def serverlessGenerateVideoEndpoint (hfToken : Option String) (taskId prompt : String)
    (duration : Nat) (outcome : SProviderOutcome) : Except HTTPError ServerlessVideoResponse :=
  match serverlessEndpointBody hfToken taskId prompt duration outcome with
  | .error e =>
    .error { statusCode := 500, detail := "Video generation failed: " ++ httpExcText e }
  | ok => ok

/-! Helper lemmas about the dictionary operations. -/

theorem lookupAssoc_set_self {α : Type} (t : List (String × α)) (k : String) (v : α) :
    lookupAssoc (setAssoc t k v) k = some v := by
  induction t with
  | nil => simp [setAssoc, lookupAssoc]
  | cons hd tl ih =>
    obtain ⟨k0, v0⟩ := hd
    by_cases h : k0 == k
    · simp [setAssoc, lookupAssoc, h]
    · simp only [setAssoc, lookupAssoc, h, Bool.false_eq_true, if_false]
      simpa [lookupAssoc, h] using ih

theorem lookupAssoc_set_ne {α : Type} (t : List (String × α)) (k k2 : String) (v : α)
    (h : k2 ≠ k) : lookupAssoc (setAssoc t k v) k2 = lookupAssoc t k2 := by
  have hk2 : (k == k2) = false := beq_eq_false_iff_ne.mpr (fun hc => h hc.symm)
  induction t with
  | nil => simp [setAssoc, lookupAssoc, hk2]
  | cons hd tl ih =>
    obtain ⟨k0, v0⟩ := hd
    by_cases hk : k0 == k
    · have hk0 : k0 = k := beq_iff_eq.mp hk
      subst hk0
      simp [setAssoc, lookupAssoc, hk2]
    · simp only [setAssoc, lookupAssoc, hk, Bool.false_eq_true, if_false]
      by_cases hq : k0 == k2
      · simp [lookupAssoc, hq]
      · simp [lookupAssoc, hq, ih]

theorem lookupAssoc_update_self {α : Type} (t : List (String × α)) (k : String) (f : α → α) :
    lookupAssoc (updateAssoc t k f) k = (lookupAssoc t k).map f := by
  induction t with
  | nil => simp [updateAssoc, lookupAssoc]
  | cons hd tl ih =>
    obtain ⟨k0, v0⟩ := hd
    by_cases h : k0 == k
    · simp [updateAssoc, lookupAssoc, h]
    · simp [updateAssoc, lookupAssoc, h, ih]

theorem lookupAssoc_update_ne {α : Type} (t : List (String × α)) (k k2 : String) (f : α → α)
    (h : k2 ≠ k) : lookupAssoc (updateAssoc t k f) k2 = lookupAssoc t k2 := by
  have hk2 : (k == k2) = false := beq_eq_false_iff_ne.mpr (fun hc => h hc.symm)
  induction t with
  | nil => simp [updateAssoc, lookupAssoc]
  | cons hd tl ih =>
    obtain ⟨k0, v0⟩ := hd
    by_cases hk : k0 == k
    · have hk0 : k0 = k := beq_iff_eq.mp hk
      subst hk0
      simp [updateAssoc, lookupAssoc, hk2]
    · by_cases hq : k0 == k2
      · simp [updateAssoc, lookupAssoc, hk, hq]
      · simp [updateAssoc, lookupAssoc, hk, hq, ih]

/-- The saved bytes of a payload are its underlying bytes, whichever branch of
the duck-typed save logic fires. -/
theorem savedVideoBytes_eq_underlying (p : VideoResult) :
    savedVideoBytes p = underlyingBytes p := by
  cases p <;> rfl

/-- The serverless extraction returns exactly the underlying bytes. -/
theorem extractVideoData_eq_underlying (p : VideoResult) :
    extractVideoData p = some (underlyingBytes p) := by
  cases p <;> rfl

/-- A payload with nonempty underlying bytes and a well-formed path is truthy. -/
theorem pyTruthy_of_nonempty (p : VideoResult) (hp : pathOk p = true)
    (hne : underlyingBytes p ≠ []) : pyTruthy p = true := by
  cases p with
  | contentObj b => rfl
  | rawBytes b =>
    cases b with
    | nil => exact absurd rfl hne
    | cons a l => rfl
  | readable b => rfl
  | filePath pth b => simpa [pyTruthy, pathOk] using hp

/-! Claim theorems. -/

/-- C5: every caller-supplied duration is silently overridden. The generator
result and state are identical for any two duration arguments, the provider
call arguments are duration-independent with num_frames fixed at 120 (which is
5 seconds at 24 fps), and hence the response never reflects an arbitrary
duration. -/
theorem duration_override_fixed_five_seconds (hfToken : Option String) (clientOk : Bool)
    (s : GenState) (prompt : String) (d d2 : Nat) (taskId : String) (now : Nat)
    (outcome : ProviderOutcome) :
    generateVideo hfToken clientOk s prompt d taskId now outcome =
      generateVideo hfToken clientOk s prompt d2 taskId now outcome
    ∧ hfCallArgs prompt d = hfCallArgs prompt d2
    ∧ (hfCallArgs prompt d).numFrames = 120
    ∧ hfNumFrames = 5 * 24 :=
  ⟨rfl, rfl, rfl, rfl⟩

/-- C10: mock-mode generation always returns a success result carrying the
canned placeholder URL and the task id, records the task as completed, is
independent of the prompt content, and runs after the fixed 3-second simulated
delay. -/
theorem mock_generation_always_succeeds (s : GenState) (prompt prompt2 : String)
    (duration : Nat) (taskId : String) (now : Nat) :
    (mockGeneration s prompt duration taskId now).1 =
      { status := "success"
        videoUrl := some mockVideoUrl
        taskId := some taskId
        message := some "Mock video generated (add HF_TOKEN for real generation)" }
    ∧ lookupAssoc (mockGeneration s prompt duration taskId now).2.tasks taskId =
        some { status := .completed
               videoUrl := some mockVideoUrl
               provider := "mock"
               createdAt := now
               prompt := prompt }
    ∧ (mockGeneration s prompt duration taskId now).1 =
        (mockGeneration s prompt2 duration taskId now).1
    ∧ mockSimulatedDelaySeconds = 3 := by
  refine ⟨rfl, ?_, rfl, rfl⟩
  simp [mockGeneration, lookupAssoc_set_self]

/-- C7 counterexample: in the serverless variant a valid submission with no
credentials configured is reported as an error (message HF_TOKEN not
configured), refuting the claim that no variant reports an error in that
case. -/
theorem serverless_no_token_reports_error :
    promptTooShort "a cat playing piano" = false
    ∧ (generateVideoServerless none "t1" "a cat playing piano" 5
        (.ok (.rawBytes [1, 2, 3]))).status = "error"
    ∧ serverlessGenerateVideoEndpoint none "t1" "a cat playing piano" 5
        (.ok (.rawBytes [1, 2, 3])) =
      .ok { status := "error", taskId := some "t1", message := some "HF_TOKEN not configured" } := by
  decide

/-- C7 amended: with no credentials the non-serverless generator falls back to
mock generation and succeeds, while the serverless variant does not fall back
and returns an error result saying HF_TOKEN is not configured. -/
theorem no_credentials_mock_fallback_vs_serverless_error (clientOk : Bool) (s : GenState)
    (prompt : String) (duration : Nat) (taskId : String) (now : Nat)
    (outcome : ProviderOutcome) (staskId sprompt : String) (sduration : Nat)
    (soutcome : SProviderOutcome) :
    generateVideo none clientOk s prompt duration taskId now outcome =
      mockGeneration s prompt 5 taskId now
    ∧ (generateVideo none clientOk s prompt duration taskId now outcome).1.status = "success"
    ∧ generateVideoServerless none staskId sprompt sduration soutcome =
        { status := "error", message := some "HF_TOKEN not configured", taskId := some staskId } := by
  refine ⟨?_, ?_, rfl⟩
  · simp [generateVideo]
  · simp [generateVideo, mockGeneration]

/-- C8 counterexample: on a serverless timeout the returned result is an error
whose message indicates the timeout, but the serverless variant stores no task
record at all, so no task transitions to failed. -/
theorem serverless_timeout_no_failed_task_record :
    (generateVideoServerless (some "k") "t1" "a cat" 5 .timeout).status = "error"
    ∧ strContainsStr
        ((generateVideoServerless (some "k") "t1" "a cat" 5 .timeout).message.getD "")
        "timed out" = true
    ∧ serverlessTaskWrites (some "k") "t1" "a cat" 5 .timeout = []
    ∧ ¬ ∃ rec, lookupAssoc (serverlessTaskWrites (some "k") "t1" "a cat" 5 .timeout) "t1" =
          some rec ∧ rec.status = .failed := by
  refine ⟨by decide, by decide, rfl, ?_⟩
  rintro ⟨rec, hrec, _⟩
  simp [serverlessTaskWrites, lookupAssoc] at hrec

/-- C8 amended: a serverless provider call that exceeds the 240-second timeout
returns a result with status error and a message indicating the timeout; the
serverless variant keeps no task table, so no stored task record transitions
to failed. -/
theorem serverless_timeout_error_result (tok taskId prompt : String) (duration : Nat) :
    generateVideoServerless (some tok) taskId prompt duration .timeout =
      { status := "error"
        message := some "Video generation timed out. Try a shorter/simpler prompt."
        taskId := some taskId }
    ∧ strContainsStr "Video generation timed out. Try a shorter/simpler prompt." "timed out" = true
    ∧ serverlessTaskWrites (some tok) taskId prompt duration .timeout = [] :=
  ⟨rfl, by decide, rfl⟩

/-- C3: a successful file-backed generation writes the video under
static/generated_videos, which the mount of main.py line 127 serves at
/static/generated_videos/..., but the video_url stored and returned is
/video-static/generated_videos/..., which does not lie under the mounted
static route: the returned URL does not locate the written file. -/
theorem video_url_not_served_by_static_mount :
    (generateVideo (some "k") true ⟨[], []⟩ "a cat" 5 "t" 0 (.ok (.rawBytes [1]))).1.status =
      "success"
    ∧ (generateVideo (some "k") true ⟨[], []⟩ "a cat" 5 "t" 0 (.ok (.rawBytes [1]))).1.videoUrl =
        some "/video-static/generated_videos/generated_video_t.mp4"
    ∧ (generateVideo (some "k") true ⟨[], []⟩ "a cat" 5 "t" 0 (.ok (.rawBytes [1]))).2.files =
        [("static/generated_videos/generated_video_t.mp4", [1])]
    ∧ (lookupAssoc (generateVideo (some "k") true ⟨[], []⟩ "a cat" 5 "t" 0
          (.ok (.rawBytes [1]))).2.tasks "t").map TaskRecord.videoUrl =
        some (some "/video-static/generated_videos/generated_video_t.mp4")
    ∧ servedUrlOfPath "static/generated_videos/generated_video_t.mp4" =
        some "/static/generated_videos/generated_video_t.mp4"
    ∧ ("/video-static/generated_videos/generated_video_t.mp4" : String) ≠
        "/static/generated_videos/generated_video_t.mp4"
    ∧ startsWithChars (staticMountRoute ++ "/").toList
        "/video-static/generated_videos/generated_video_t.mp4".toList = false := by
  decide

/-- C6: a prompt of trimmed length below 3 never reaches the generator and
creates no task, but the rejection reaches the client as a 500 server error,
not the intended 400 client error: the HTTPException(400) raised by the
validation is caught by the blanket except Exception of the endpoint and
re-raised as HTTPException(500). Identical responses across different provider
outcomes witness that the generator is not invoked. -/
theorem short_prompt_rejected_as_500_no_task :
    mainGenerateVideoEndpoint (some "k") true ⟨[], []⟩ "hi" 5 "t" 0 (.ok (.rawBytes [1])) =
      (.error { statusCode := 500,
                detail := "Video generation failed: 400: Prompt must be at least 3 characters long" },
       ⟨[], []⟩)
    ∧ mainGenerateVideoEndpoint (some "k") true ⟨[], []⟩ "hi" 5 "t" 0 .noneResult =
        mainGenerateVideoEndpoint (some "k") true ⟨[], []⟩ "hi" 5 "t" 0 (.exn "boom")
    ∧ serverlessGenerateVideoEndpoint (some "k") "t" "hi" 5 (.ok (.rawBytes [1])) =
        .error { statusCode := 500,
                 detail := "Video generation failed: 400: Prompt must be at least 3 characters long" }
    ∧ promptTooShort "hi" = true
    ∧ promptTooShort "  ab  " = true
    ∧ promptTooShort "" = true := by
  decide

/-- C2 counterexample: two payload shapes carrying the same (empty) underlying
bytes are stored differently in file-backed mode: the raw bytes shape is falsy
and fails with no file written, while the content-attribute shape writes an
empty file and succeeds. -/
theorem payload_empty_bytes_shape_divergence :
    underlyingBytes (.rawBytes []) = underlyingBytes (.contentObj [])
    ∧ (generateWithHuggingface ⟨[], []⟩ "p" 5 "t" 0 (.ok (.rawBytes []))).2.files = []
    ∧ (generateWithHuggingface ⟨[], []⟩ "p" 5 "t" 0 (.ok (.rawBytes []))).1.status = "error"
    ∧ (generateWithHuggingface ⟨[], []⟩ "p" 5 "t" 0 (.ok (.contentObj []))).2.files =
        [("static/generated_videos/generated_video_t.mp4", [])]
    ∧ (generateWithHuggingface ⟨[], []⟩ "p" 5 "t" 0 (.ok (.contentObj []))).1.status =
        "success" := by
  decide

/-- C2 amended: two payloads of any of the four accepted shapes carrying the
same nonempty underlying bytes (with an existing, hence nonempty, path in the
file-path shape) produce identical generator results and states in file-backed
mode, and identical serverless results, in particular the same written file
contents and the same base64 string. -/
theorem payload_same_nonempty_bytes_same_artifact (p q : VideoResult) (s : GenState)
    (prompt : String) (duration : Nat) (taskId : String) (now : Nat)
    (tok staskId sprompt : String) (sduration : Nat)
    (hp : pathOk p = true) (hq : pathOk q = true)
    (hb : underlyingBytes p = underlyingBytes q)
    (hne : underlyingBytes p ≠ []) :
    generateWithHuggingface s prompt duration taskId now (.ok p) =
      generateWithHuggingface s prompt duration taskId now (.ok q)
    ∧ generateVideoServerless (some tok) staskId sprompt sduration (.ok p) =
        generateVideoServerless (some tok) staskId sprompt sduration (.ok q) := by
  have tp := pyTruthy_of_nonempty p hp hne
  have tq := pyTruthy_of_nonempty q hq (hb ▸ hne)
  constructor
  · simp [generateWithHuggingface, hfResolve, tp, tq, savedVideoBytes_eq_underlying, hb]
  · simp [generateVideoServerless, tp, tq, extractVideoData_eq_underlying, hb]

/-- C2 witness: the amended theorem applied to a raw-bytes payload and a
content-attribute payload carrying the same nonempty bytes. -/
theorem payload_same_nonempty_bytes_same_artifact_witness :
    pathOk (.rawBytes [1, 2]) = true
    ∧ pathOk (.contentObj [1, 2]) = true
    ∧ underlyingBytes (.rawBytes [1, 2]) = underlyingBytes (.contentObj [1, 2])
    ∧ underlyingBytes (.rawBytes [1, 2]) ≠ []
    ∧ (generateWithHuggingface ⟨[], []⟩ "p" 5 "t" 0 (.ok (.rawBytes [1, 2])) =
        generateWithHuggingface ⟨[], []⟩ "p" 5 "t" 0 (.ok (.contentObj [1, 2]))
      ∧ generateVideoServerless (some "k") "t2" "p" 5 (.ok (.rawBytes [1, 2])) =
          generateVideoServerless (some "k") "t2" "p" 5 (.ok (.contentObj [1, 2]))) :=
  ⟨by decide, by decide, by decide, by decide,
   payload_same_nonempty_bytes_same_artifact (.rawBytes [1, 2]) (.contentObj [1, 2])
     ⟨[], []⟩ "p" 5 "t" 0 "k" "t2" "p" 5 (by decide) (by decide) (by decide) (by decide)⟩

/-- Submitting with a task id different from a given key leaves that key's
binding untouched, in both the provider and the mock branch. -/
theorem generateVideo_preserves_other (hfToken : Option String) (clientOk : Bool)
    (s : GenState) (prompt : String) (duration : Nat) (taskId : String) (now : Nat)
    (outcome : ProviderOutcome) (oldId : String) (hne : oldId ≠ taskId) :
    lookupAssoc (generateVideo hfToken clientOk s prompt duration taskId now outcome).2.tasks oldId =
      lookupAssoc s.tasks oldId := by
  by_cases hcl : clientOk && hfToken.isSome
  · cases outcome with
    | ok r =>
      by_cases htr : pyTruthy r
      · simp [generateVideo, hcl, generateWithHuggingface, hfResolve, htr, hfInsertTask,
              lookupAssoc_update_ne _ _ _ _ hne, lookupAssoc_set_ne _ _ _ _ hne]
      · simp [generateVideo, hcl, generateWithHuggingface, hfResolve, htr, hfFailNoContent,
              hfInsertTask, lookupAssoc_update_ne _ _ _ _ hne, lookupAssoc_set_ne _ _ _ _ hne]
    | noneResult =>
      simp [generateVideo, hcl, generateWithHuggingface, hfResolve, hfFailNoContent, hfInsertTask,
            lookupAssoc_update_ne _ _ _ _ hne, lookupAssoc_set_ne _ _ _ _ hne]
    | exn msg =>
      simp [generateVideo, hcl, generateWithHuggingface, hfResolve, hfInsertTask,
            lookupAssoc_update_ne _ _ _ _ hne, lookupAssoc_set_ne _ _ _ _ hne]
  · simp [generateVideo, hcl, mockGeneration, lookupAssoc_set_ne _ _ _ _ hne]

/-- After a submission the submitted task id is bound to a terminal record:
completed or failed, never anything else. -/
theorem generateVideo_new_task_terminal (hfToken : Option String) (clientOk : Bool)
    (s : GenState) (prompt : String) (duration : Nat) (taskId : String) (now : Nat)
    (outcome : ProviderOutcome) :
    ∃ newRec,
      lookupAssoc (generateVideo hfToken clientOk s prompt duration taskId now outcome).2.tasks taskId =
        some newRec
      ∧ (newRec.status = .completed ∨ newRec.status = .failed) := by
  by_cases hcl : clientOk && hfToken.isSome
  · cases outcome with
    | ok r =>
      by_cases htr : pyTruthy r
      · refine ⟨{ hfInitRecord prompt now with
            status := .completed, videoUrl := some (hfVideoUrl taskId) }, ?_, Or.inl rfl⟩
        simp [generateVideo, hcl, generateWithHuggingface, hfResolve, htr, hfInsertTask,
              lookupAssoc_update_self, lookupAssoc_set_self]
      · refine ⟨{ hfInitRecord prompt now with
            status := .failed, error := some "No video content received" }, ?_, Or.inr rfl⟩
        simp [generateVideo, hcl, generateWithHuggingface, hfResolve, htr, hfFailNoContent,
              hfInsertTask, lookupAssoc_update_self, lookupAssoc_set_self]
    | noneResult =>
      refine ⟨{ hfInitRecord prompt now with
          status := .failed, error := some "No video content received" }, ?_, Or.inr rfl⟩
      simp [generateVideo, hcl, generateWithHuggingface, hfResolve, hfFailNoContent, hfInsertTask,
            lookupAssoc_update_self, lookupAssoc_set_self]
    | exn msg =>
      refine ⟨{ hfInitRecord prompt now with
          status := .failed, error := some msg }, ?_, Or.inr rfl⟩
      simp [generateVideo, hcl, generateWithHuggingface, hfResolve, hfInsertTask,
            lookupAssoc_update_self, lookupAssoc_set_self]
  · have hrec :
        lookupAssoc (generateVideo hfToken clientOk s prompt duration taskId now outcome).2.tasks
          taskId =
        some { status := .completed
               videoUrl := some mockVideoUrl
               provider := "mock"
               createdAt := now
               prompt := prompt } := by
      simp [generateVideo, hcl, mockGeneration, lookupAssoc_set_self]
    exact ⟨_, hrec, Or.inl rfl⟩

/-- C4: task records are only driven from processing to a terminal status and
are never mutated afterwards. A submission under a fresh task id leaves every
existing binding (in particular every terminal one) byte-for-byte unchanged,
the status lookup never writes to the state, the freshly submitted task ends
terminal (completed or failed), and in the provider branch the record starts
out as processing before it is resolved. -/
theorem task_lifecycle_invariants (hfToken : Option String) (clientOk : Bool)
    (s : GenState) (prompt : String) (duration : Nat) (taskId : String) (now : Nat)
    (outcome : ProviderOutcome) (oldId : String) (oldRec : TaskRecord)
    (q : String) (s2 : GenState)
    (hfresh : lookupAssoc s.tasks taskId = none)
    (hold : lookupAssoc s.tasks oldId = some oldRec) :
    lookupAssoc (generateVideo hfToken clientOk s prompt duration taskId now outcome).2.tasks oldId =
      some oldRec
    ∧ (getGenerationStatus s2 q).2 = s2
    ∧ (∃ newRec,
        lookupAssoc (generateVideo hfToken clientOk s prompt duration taskId now outcome).2.tasks
            taskId = some newRec
        ∧ (newRec.status = .completed ∨ newRec.status = .failed))
    ∧ (lookupAssoc (hfInsertTask s prompt taskId now).tasks taskId).map TaskRecord.status =
        some .processing := by
  have hne : oldId ≠ taskId := by
    intro hcontra
    rw [hcontra, hfresh] at hold
    exact Option.noConfusion hold
  refine ⟨?_, ?_, generateVideo_new_task_terminal _ _ _ _ _ _ _ _, ?_⟩
  · rw [generateVideo_preserves_other _ _ _ _ _ _ _ _ _ hne, hold]
  · unfold getGenerationStatus
    rcases lookupAssoc s2.tasks q with _ | info
    · rfl
    · obtain ⟨st, prov, ca, pr, vu, er⟩ := info
      cases st <;> rfl
  · simp [hfInsertTask, lookupAssoc_set_self, hfInitRecord]

/-- C9: a successful submission under a fresh task id returns that id, the id
is distinct from every id already stored, and the id is immediately resolvable:
the table binds it to a completed record whose video reference matches the
result, and the status lookup returns the success projection of that record. -/
theorem fresh_task_id_resolvable_after_success (hfToken : Option String) (clientOk : Bool)
    (s : GenState) (prompt : String) (duration : Nat) (taskId : String) (now : Nat)
    (outcome : ProviderOutcome) (prevId : String) (prevRec : TaskRecord)
    (hfresh : lookupAssoc s.tasks taskId = none)
    (hsucc : (generateVideo hfToken clientOk s prompt duration taskId now outcome).1.status =
      "success") :
    (generateVideo hfToken clientOk s prompt duration taskId now outcome).1.taskId = some taskId
    ∧ (lookupAssoc s.tasks prevId = some prevRec → prevId ≠ taskId)
    ∧ ∃ rec,
        lookupAssoc (generateVideo hfToken clientOk s prompt duration taskId now outcome).2.tasks
            taskId = some rec
        ∧ rec.status = .completed
        ∧ rec.videoUrl =
            (generateVideo hfToken clientOk s prompt duration taskId now outcome).1.videoUrl
        ∧ (getGenerationStatus
              (generateVideo hfToken clientOk s prompt duration taskId now outcome).2 taskId).1 =
            { status := "success"
              videoUrl := rec.videoUrl
              taskId := some taskId
              message := some "Video generation completed" } := by
  have hprev : lookupAssoc s.tasks prevId = some prevRec → prevId ≠ taskId := by
    intro hp hcontra
    rw [hcontra, hfresh] at hp
    exact Option.noConfusion hp
  by_cases hcl : clientOk && hfToken.isSome
  · cases outcome with
    | ok r =>
      by_cases htr : pyTruthy r
      · refine ⟨?_, hprev, ?_⟩
        · simp [generateVideo, hcl, generateWithHuggingface, hfResolve, htr]
        · have hrec :
              lookupAssoc
                  (generateVideo hfToken clientOk s prompt duration taskId now (.ok r)).2.tasks
                  taskId =
              some { hfInitRecord prompt now with
                     status := .completed, videoUrl := some (hfVideoUrl taskId) } := by
            simp [generateVideo, hcl, generateWithHuggingface, hfResolve, htr, hfInsertTask,
                  lookupAssoc_update_self, lookupAssoc_set_self]
          refine ⟨{ hfInitRecord prompt now with
              status := .completed, videoUrl := some (hfVideoUrl taskId) }, hrec, rfl, ?_, ?_⟩
          · simp [generateVideo, hcl, generateWithHuggingface, hfResolve, htr, hfInitRecord]
          · simp [getGenerationStatus, hrec, hfInitRecord]
      · exfalso
        simp [generateVideo, hcl, generateWithHuggingface, hfResolve, htr, hfFailNoContent]
          at hsucc
    | noneResult =>
      exfalso
      simp [generateVideo, hcl, generateWithHuggingface, hfResolve, hfFailNoContent] at hsucc
    | exn msg =>
      exfalso
      simp [generateVideo, hcl, generateWithHuggingface, hfResolve] at hsucc
  · refine ⟨?_, hprev, ?_⟩
    · simp [generateVideo, hcl, mockGeneration]
    · have hrec :
          lookupAssoc
              (generateVideo hfToken clientOk s prompt duration taskId now outcome).2.tasks
              taskId =
          some { status := .completed
                 videoUrl := some mockVideoUrl
                 provider := "mock"
                 createdAt := now
                 prompt := prompt } := by
        simp [generateVideo, hcl, mockGeneration, lookupAssoc_set_self]
      refine ⟨{ status := .completed
                videoUrl := some mockVideoUrl
                provider := "mock"
                createdAt := now
                prompt := prompt }, hrec, rfl, ?_, ?_⟩
      · simp [generateVideo, hcl, mockGeneration]
      · simp [getGenerationStatus, hrec]

/-- C1: when the generator result has status error, the non-serverless handler
answers with a processing response carrying the task id, while the serverless
handler answers with an error response carrying the generator message and the
task id. -/
theorem hf_error_maps_to_processing_main_and_error_serverless (hfToken : Option String)
    (clientOk : Bool) (s : GenState) (prompt : String) (duration : Nat) (taskId : String)
    (now : Nat) (outcome : ProviderOutcome) (stok : Option String) (staskId sprompt : String)
    (sduration : Nat) (soutcome : SProviderOutcome)
    (hvalid : promptTooShort prompt = false)
    (herr : (generateVideo hfToken clientOk s prompt duration taskId now outcome).1.status =
      "error")
    (hsvalid : promptTooShort sprompt = false)
    (hserr : (generateVideoServerless stok staskId sprompt sduration soutcome).status =
      "error") :
    (mainGenerateVideoEndpoint hfToken clientOk s prompt duration taskId now outcome).1 =
      .ok { status := "processing"
            taskId := (generateVideo hfToken clientOk s prompt duration taskId now outcome).1.taskId
            message := some "Video generation in progress. Check status with task ID." }
    ∧ serverlessGenerateVideoEndpoint stok staskId sprompt sduration soutcome =
        .ok { status := "error"
              taskId := (generateVideoServerless stok staskId sprompt sduration soutcome).taskId
              message :=
                (generateVideoServerless stok staskId sprompt sduration soutcome).message } := by
  have h1 : ((generateVideo hfToken clientOk s prompt duration taskId now outcome).1.status ==
      "success") = false := by
    rw [herr]
    decide
  have h2 : ((generateVideoServerless stok staskId sprompt sduration soutcome).status ==
      "success") = false := by
    rw [hserr]
    decide
  constructor
  · simp [mainGenerateVideoEndpoint, mainGenerateVideoBody, hvalid, h1]
  · simp [serverlessGenerateVideoEndpoint, serverlessEndpointBody, hsvalid, h2]

/-- C1 witness: the mapping theorem applied to a concrete provider exception
in the non-serverless variant and a concrete timeout in the serverless one. -/
theorem hf_error_maps_witness :
    promptTooShort "a cat" = false
    ∧ (generateVideo (some "k") true (GenState.mk [] []) "a cat" 5 "t1" 0
        (.exn "boom")).1.status = "error"
    ∧ promptTooShort "a cat" = false
    ∧ (generateVideoServerless (some "k") "t2" "a cat" 5 .timeout).status = "error"
    ∧ ((mainGenerateVideoEndpoint (some "k") true (GenState.mk [] []) "a cat" 5 "t1" 0
          (.exn "boom")).1 =
        .ok { status := "processing"
              taskId := (generateVideo (some "k") true (GenState.mk [] []) "a cat" 5 "t1" 0
                (.exn "boom")).1.taskId
              message := some "Video generation in progress. Check status with task ID." }
      ∧ serverlessGenerateVideoEndpoint (some "k") "t2" "a cat" 5 .timeout =
          .ok { status := "error"
                taskId := (generateVideoServerless (some "k") "t2" "a cat" 5 .timeout).taskId
                message := (generateVideoServerless (some "k") "t2" "a cat" 5 .timeout).message }) :=
  ⟨by decide, by decide, by decide, by decide,
   hf_error_maps_to_processing_main_and_error_serverless (some "k") true (GenState.mk [] [])
     "a cat" 5 "t1" 0 (.exn "boom") (some "k") "t2" "a cat" 5 .timeout
     (by decide) (by decide) (by decide) (by decide)⟩

/-- C4 witness: the lifecycle theorem applied to a table holding one failed
task, resubmitting under a fresh id with a provider exception. -/
theorem task_lifecycle_invariants_witness :
    lookupAssoc (GenState.mk [("old", { status := .failed, provider := "huggingface", createdAt := 0, prompt := "x", videoUrl := none, error := some "boom" })] []).tasks "new" = none
    ∧ lookupAssoc (GenState.mk [("old", { status := .failed, provider := "huggingface", createdAt := 0, prompt := "x", videoUrl := none, error := some "boom" })] []).tasks "old" =
        some { status := .failed, provider := "huggingface", createdAt := 0, prompt := "x", videoUrl := none, error := some "boom" }
    ∧ (lookupAssoc (generateVideo (some "k") true (GenState.mk [("old", { status := .failed, provider := "huggingface", createdAt := 0, prompt := "x", videoUrl := none, error := some "boom" })] []) "a cat" 5 "new" 1 (.exn "err")).2.tasks "old" =
        some { status := .failed, provider := "huggingface", createdAt := 0, prompt := "x", videoUrl := none, error := some "boom" }
      ∧ (getGenerationStatus (GenState.mk [("old", { status := .failed, provider := "huggingface", createdAt := 0, prompt := "x", videoUrl := none, error := some "boom" })] []) "old").2 =
          GenState.mk [("old", { status := .failed, provider := "huggingface", createdAt := 0, prompt := "x", videoUrl := none, error := some "boom" })] []
      ∧ (∃ newRec,
          lookupAssoc (generateVideo (some "k") true (GenState.mk [("old", { status := .failed, provider := "huggingface", createdAt := 0, prompt := "x", videoUrl := none, error := some "boom" })] []) "a cat" 5 "new" 1 (.exn "err")).2.tasks "new" =
            some newRec
          ∧ (newRec.status = .completed ∨ newRec.status = .failed))
      ∧ (lookupAssoc (hfInsertTask (GenState.mk [("old", { status := .failed, provider := "huggingface", createdAt := 0, prompt := "x", videoUrl := none, error := some "boom" })] []) "a cat" "new" 1).tasks "new").map TaskRecord.status =
          some .processing) :=
  ⟨by decide, by decide,
   task_lifecycle_invariants (some "k") true
     (GenState.mk [("old", { status := .failed, provider := "huggingface", createdAt := 0, prompt := "x", videoUrl := none, error := some "boom" })] [])
     "a cat" 5 "new" 1 (.exn "err") "old"
     { status := .failed, provider := "huggingface", createdAt := 0, prompt := "x", videoUrl := none, error := some "boom" }
     "old"
     (GenState.mk [("old", { status := .failed, provider := "huggingface", createdAt := 0, prompt := "x", videoUrl := none, error := some "boom" })] [])
     (by decide) (by decide)⟩

/-- C9 witness: the resolvability theorem applied to a mock-mode submission on
an empty table. -/
theorem fresh_task_id_resolvable_witness :
    lookupAssoc (GenState.mk [] []).tasks "t1" = none
    ∧ (generateVideo none false (GenState.mk [] []) "a cat" 5 "t1" 0 .noneResult).1.status =
        "success"
    ∧ ((generateVideo none false (GenState.mk [] []) "a cat" 5 "t1" 0 .noneResult).1.taskId =
          some "t1"
      ∧ (lookupAssoc (GenState.mk [] []).tasks "p" =
          some { status := .failed, provider := "mock", createdAt := 0, prompt := "y", videoUrl := none, error := none } → "p" ≠ "t1")
      ∧ ∃ rec,
          lookupAssoc (generateVideo none false (GenState.mk [] []) "a cat" 5 "t1" 0
              .noneResult).2.tasks "t1" = some rec
          ∧ rec.status = .completed
          ∧ rec.videoUrl =
              (generateVideo none false (GenState.mk [] []) "a cat" 5 "t1" 0 .noneResult).1.videoUrl
          ∧ (getGenerationStatus
                (generateVideo none false (GenState.mk [] []) "a cat" 5 "t1" 0 .noneResult).2
                "t1").1 =
              { status := "success"
                videoUrl := rec.videoUrl
                taskId := some "t1"
                message := some "Video generation completed" }) :=
  ⟨by decide, by decide,
   fresh_task_id_resolvable_after_success none false (GenState.mk [] []) "a cat" 5 "t1" 0
     .noneResult "p"
     { status := .failed, provider := "mock", createdAt := 0, prompt := "y", videoUrl := none, error := none }
     (by decide) (by decide)⟩
